import Mathlib

/-!
# Verification of the amplifier-bundle-containers modules

A shallow embedding in Lean 4 of the pure decision logic of the
`amplifier-module-tool-containers` and
`amplifier-module-hooks-container-safety` Python modules, together with
proofs about the embedded operations.

Python `dict[str, str]` values are modelled as association lists with
dict update semantics (`dinsert` replaces an existing key in place and
appends a fresh key at the end, exactly as CPython insertion-ordered
dicts do).  Subprocess effects are modelled by passing the observable
outcome (exit code, stdout) of each external command as an explicit
argument, and by returning the list of command lines an operation hands
to the container runtime.
-/

namespace AmplifierContainers

/-! ## Dict model -/

/-- Lookup of a key in an association list, first occurrence wins
(keys are unique in every list built from Python dicts). -/
def dlookup : List (String × String) → String → Option String
  | [], _ => none
  | p :: rest, k => if p.1 = k then some p.2 else dlookup rest k

/-- Python `d[k] = v`: replace an existing binding in place, otherwise
append at the end. -/
def dinsert : List (String × String) → String → String → List (String × String)
  | [], k, v => [(k, v)]
  | p :: rest, k, v => if p.1 = k then (k, v) :: rest else p :: dinsert rest k v

/-- Python `d.update(e)`: insert every binding of `e` into `d`, left to
right. -/
def dupdate (d e : List (String × String)) : List (String × String) :=
  e.foldl (fun acc p => dinsert acc p.1 p.2) d

/-- The keys of an association list are pairwise distinct (true of every
list that denotes a Python dict). -/
def KeysNodup (d : List (String × String)) : Prop :=
  (d.map Prod.fst).Nodup

/-! ## Glob matching (`fnmatch.fnmatch` on POSIX)

The patterns used by this repository only contain literal characters and
the `*` wildcard; `?` is supported as well.  Character classes are not
used by any pattern in the repository and are not modelled. -/

def globMatchL : List Char → List Char → Bool
  | [], [] => true
  | [], _ :: _ => false
  | '*' :: ps, [] => globMatchL ps []
  | '*' :: ps, c :: cs => globMatchL ps (c :: cs) || globMatchL ('*' :: ps) cs
  | '?' :: _, [] => false
  | '?' :: ps, _ :: cs => globMatchL ps cs
  | _ :: _, [] => false
  | p :: ps, c :: cs => (p == c) && globMatchL ps cs
termination_by ps cs => (ps.length, cs.length)

/-- `fnmatch.fnmatch(name, pattern)` (POSIX `normcase` is the
identity). -/
def fnmatch (name pattern : String) : Bool :=
  globMatchL pattern.data name.data

/-! ## provisioner.py: env passthrough -/

/-- `NEVER_PASSTHROUGH` from `provisioner.py`. -/
def NEVER_PASSTHROUGH : List String :=
  ["PATH", "HOME", "SHELL", "USER", "LOGNAME", "PWD", "OLDPWD", "TERM",
   "DISPLAY", "DBUS_SESSION_BUS_ADDRESS", "XDG_RUNTIME_DIR",
   "SSH_AUTH_SOCK", "SSH_CONNECTION", "SSH_CLIENT", "SSH_TTY",
   "LS_COLORS", "LANG", "LC_ALL", "HOSTNAME", "SHLVL", "_"]

/-- `DEFAULT_ENV_PATTERNS` from `provisioner.py`. -/
def DEFAULT_ENV_PATTERNS : List String :=
  ["*_API_KEY", "*_TOKEN", "*_SECRET", "ANTHROPIC_*", "OPENAI_*",
   "AZURE_OPENAI_*", "GOOGLE_*", "GEMINI_*", "OLLAMA_*", "VLLM_*",
   "AMPLIFIER_*", "HTTP_PROXY", "HTTPS_PROXY", "NO_PROXY",
   "http_proxy", "https_proxy", "no_proxy"]

/-- `match_env_patterns`: env vars whose keys match any glob pattern,
skipping `NEVER_PASSTHROUGH` keys, accumulated into a dict in iteration
order. -/
def match_env_patterns (env : List (String × String)) (patterns : List String) :
    List (String × String) :=
  env.foldl
    (fun matched p =>
      if p.1 ∈ NEVER_PASSTHROUGH then matched
      else if patterns.any (fun pat => fnmatch p.1 pat) then dinsert matched p.1 p.2
      else matched)
    []

/-- The `mode: str | list[str]` argument of `resolve_env_passthrough`. -/
inductive PassthroughMode where
  | byList (names : List String)
  | byName (s : String)
deriving DecidableEq, Repr

/-- `resolve_env_passthrough` from `provisioner.py`.  The host
environment (`os.environ`) is an explicit argument.  `config_patterns or
DEFAULT_ENV_PATTERNS` treats both `None` and the empty list as falsy. -/
def resolve_env_passthrough (host_env : List (String × String))
    (mode : PassthroughMode) (extra_env : List (String × String))
    (config_patterns : Option (List String)) : List (String × String) :=
  let patterns :=
    match config_patterns with
    | some ps => if ps.isEmpty then DEFAULT_ENV_PATTERNS else ps
    | none => DEFAULT_ENV_PATTERNS
  let base :=
    match mode with
    | .byList names =>
        names.foldl
          (fun acc k =>
            match dlookup host_env k with
            | some v => dinsert acc k v
            | none => acc)
          []
    | .byName s =>
        if s = "all" then host_env.filter (fun p => p.1 ∉ NEVER_PASSTHROUGH)
        else if s = "none" then []
        else match_env_patterns host_env patterns
  dupdate base extra_env

/-! ## Python string primitives

Modelled over `List Char` so that every definition reduces in the
kernel. -/

/-- The whitespace characters Python's `str.strip` removes. -/
def isPySpace (c : Char) : Bool :=
  c == ' ' || c == '\t' || c == '\n' || c == '\r' || c == '\x0b' || c == '\x0c'

/-- Python `s.strip()`. -/
def pyStrip (s : String) : String :=
  String.mk ((s.data.dropWhile isPySpace).reverse.dropWhile isPySpace).reverse

/-- Python `s.startswith(pre)`. -/
def pyStartsWith (s pre : String) : Bool :=
  pre.data.isPrefixOf s.data

/-- Python `sub in s` on strings. -/
def pyContains (s sub : String) : Bool :=
  (List.range (s.data.length + 1)).any (fun i => sub.data.isPrefixOf (s.data.drop i))

/-! ## provisioner.py: ProvisioningStep and GitHub credential forwarding -/

/-- `ProvisioningStep` dataclass from `provisioner.py`. -/
structure ProvisioningStep where
  name : String
  status : String
  detail : String
  error : Option String := none
deriving Repr, DecidableEq

/-- `ContainerProvisioner.extract_gh_token`: outcome of `shutil.which("gh")`
and of running `gh auth token` on the host are explicit arguments. -/
def extract_gh_token (ghOnPath : Bool) (ghExit : Int) (ghStdout : String) :
    List (String × String) :=
  if !ghOnPath then []
  else if ghExit != 0 then []
  else
    let token := pyStrip ghStdout
    if token == "" then []
    else [("GH_TOKEN", token), ("GITHUB_TOKEN", token)]

/-- Container-side observations consumed by `provision_gh_auth`: the stdout
of `printenv GH_TOKEN` in the container and the exit code of `which gh`. -/
structure GhAuthObs where
  verifyStdout : String
  ghCheckExit : Int
deriving Repr, DecidableEq

/-- `ContainerProvisioner.provision_gh_auth`.  Returns the resulting step
and, in order, the command lines handed to `runtime.run`.  Python's
`if not gh_env_vars` treats both `None` and `{}` as falsy. -/
def provision_gh_auth (container : String)
    (gh_env_vars : Option (List (String × String))) (obs : GhAuthObs) :
    ProvisioningStep × List (List String) :=
  let skipStep : ProvisioningStep :=
    { name := "forward_gh", status := "skipped",
      detail := "No GH token available (gh CLI missing or not authenticated on host)" }
  match gh_env_vars with
  | none => (skipStep, [])
  | some vars =>
      if vars.isEmpty then (skipStep, [])
      else
        let token := (dlookup vars "GH_TOKEN").getD ""
        if token == "" then (skipStep, [])
        else
          let verifyCmd := ["exec", container, "/bin/sh", "-c", "printenv GH_TOKEN"]
          if pyStrip obs.verifyStdout == token then
            let ghCheckCmd := ["exec", container, "which", "gh"]
            if obs.ghCheckExit == 0 then
              let loginCmd :=
                ["exec", container, "/bin/sh", "-c",
                 "echo \"" ++ token ++ "\" | gh auth login --with-token"]
              ({ name := "forward_gh", status := "success",
                 detail := "GH_TOKEN verified in container env + gh auth login completed" },
               [verifyCmd, ghCheckCmd, loginCmd])
            else
              ({ name := "forward_gh", status := "success",
                 detail := "GH_TOKEN verified in container env" },
               [verifyCmd, ghCheckCmd])
          else
            ({ name := "forward_gh", status := "failed",
               detail := "GH_TOKEN not visible in container environment",
               error := some
                 "Token was passed via -e flag but printenv GH_TOKEN returned empty" },
             [verifyCmd])

/-! ## __init__.py: the create operation -/

/-- A bind-mount entry of a create request (`{host, container, mode}`;
`mode` defaults to `"rw"` at use site via `mount.get("mode", "rw")`). -/
structure Mount where
  host : String
  container : String
  mode : Option String := none
deriving Repr, DecidableEq

/-- A port mapping entry (`{host, container}`). -/
structure PortMap where
  host : Nat
  container : Nat
deriving Repr, DecidableEq

/-- The fields of a create request consumed by the `docker run` argument
builder of `_op_create` (after name generation and purpose resolution).
`cpu_limit` is the already-stringified value, `none` when absent or
falsy. -/
structure CreateInput where
  name : String
  image : String
  purpose : Option String := none
  workdir : String := "/workspace"
  mounts : List Mount := []
  mount_cwd : Bool := true
  ports : List PortMap := []
  env : List (String × String) := []
  env_passthrough : PassthroughMode := .byName "auto"
  forward_git : Bool := true
  forward_gh : Bool := true
  forward_ssh : Bool := false
  memory_limit : String := "4g"
  cpu_limit : Option String := none
  gpu : Bool := false
  network : String := "bridge"
  persistent : Bool := false
  labels : List (String × String) := []
  cache_bust : Bool := false
deriving Repr, DecidableEq

/-- Host-side state read by `_op_create`: `os.environ`, `os.getcwd()`,
`Path.home()`, existence of `~/.ssh`, the configured `pids_limit` and env
patterns, and the `datetime.now(timezone.utc).isoformat()` timestamp. -/
structure HostContext where
  host_env : List (String × String)
  cwd : String
  home : String
  sshDirExists : Bool
  pids_limit : Nat := 256
  config_patterns : Option (List String) := none
  now : String
deriving Repr

/-- Python truthiness of the `purpose` value (`None` and `""` are falsy). -/
def purposeTruthy : Option String → Bool
  | none => false
  | some s => !(s == "")

/-- The workdir substitution of `_op_create` (`__init__.py` lines
648-657): only set workdir to `/workspace` if something is actually
mounted there. -/
def effective_workdir (workdir : String) (mount_cwd : Bool) (mounts : List Mount) : String :=
  if workdir == "/workspace" && !mount_cwd &&
      !(mounts.any (fun m => pyStartsWith m.container "/workspace")) then
    "/root"
  else workdir

/-- The label dict built by `_op_create` (base labels, then
`amplifier.purpose` when purpose is truthy, then user labels). -/
def create_labels (inp : CreateInput) (now : String) : List (String × String) :=
  dupdate
    ([("amplifier.managed", "true"), ("amplifier.bundle", "containers"),
      ("amplifier.created", now),
      ("amplifier.persistent", if inp.persistent then "true" else "false")] ++
     (if purposeTruthy inp.purpose then [("amplifier.purpose", inp.purpose.getD "")] else []))
    inp.labels

/-- The full `run -d` argument list `_op_create` builds (`__init__.py`
lines 659-744). -/
def op_create_run_args (h : HostContext) (inp : CreateInput)
    (composeNetwork : Option String) : List String :=
  let wd := effective_workdir inp.workdir inp.mount_cwd inp.mounts
  let env_vars :=
    resolve_env_passthrough h.host_env inp.env_passthrough inp.env h.config_patterns
  ["run", "-d", "--name", inp.name, "--hostname", inp.name, "-w", wd,
   "--security-opt=no-new-privileges",
   "--memory=" ++ inp.memory_limit,
   "--pids-limit=" ++ toString h.pids_limit] ++
  (match inp.cpu_limit with | some c => ["--cpus", c] | none => []) ++
  (if inp.gpu then ["--gpus", "all"] else []) ++
  ["--network", composeNetwork.getD inp.network] ++
  (if inp.mount_cwd then ["-v", h.cwd ++ ":" ++ wd] else []) ++
  inp.mounts.flatMap
    (fun m => ["-v", m.host ++ ":" ++ m.container ++ ":" ++ m.mode.getD "rw"]) ++
  (if inp.forward_ssh && h.sshDirExists then
    ["-v", h.home ++ "/.ssh:/tmp/.host-ssh:ro"] else []) ++
  inp.ports.flatMap (fun p => ["-p", toString p.host ++ ":" ++ toString p.container]) ++
  env_vars.flatMap (fun p => ["-e", p.1 ++ "=" ++ p.2]) ++
  (create_labels inp h.now).flatMap (fun l => ["-l", l.1 ++ "=" ++ l.2]) ++
  [inp.image, "/bin/sh", "-c", "while true; do sleep 1 2>/dev/null || true; done"]

/-- The gh-credentials step of the create provisioning sequence
(`__init__.py` lines 791-796): `provision_gh_auth` is invoked without a
`gh_env_vars` argument, so its parameter default `None` applies. -/
def op_create_gh_step (inp : CreateInput) (obs : GhAuthObs) :
    ProvisioningStep × List (List String) :=
  if inp.forward_gh then provision_gh_auth inp.name none obs
  else ({ name := "forward_gh", status := "skipped", detail := "Not requested" }, [])

/-! ## __init__.py: image caching after create -/

/-- The `commit` command issued by `_cache_image`; `version_hash` is
`get_profile_hash(purpose)` (`None` and `""` are falsy for the label
branch). -/
def cache_image_args (version_hash : Option String) (container purpose : String) :
    List String :=
  ["commit"] ++
  (match version_hash with
   | some h => if h == "" then [] else ["--change", "LABEL amplifier.cache.version=" ++ h]
   | none => []) ++
  [container, "amplifier-cache:" ++ purpose]

/-- `setup_ok` of `_op_create`: the `setup_commands` step is absent
from the report or has status `"success"`. -/
def setup_commands_ok (report : List ProvisioningStep) : Bool :=
  match report.find? (fun s => s.name == "setup_commands") with
  | none => true
  | some s => s.status == "success"

/-- The commit commands issued after provisioning (`__init__.py` lines
962-966): commit exactly when purpose is truthy, no cached image was
used, `cache_bust` is false, and setup succeeded. -/
def op_create_cache_cmds (purpose : Option String) (cache_used cache_bust : Bool)
    (report : List ProvisioningStep) (version_hash : Option String) (name : String) :
    List (List String) :=
  if purposeTruthy purpose && !cache_used && !cache_bust && setup_commands_ok report then
    [cache_image_args version_hash name (purpose.getD "")]
  else []

/-! ## __init__.py: exec_poll -/

/-- Python `str.isdigit` restricted to ASCII decimal digits. -/
def pyIsDigit (s : String) : Bool := !s.isEmpty && s.data.all Char.isDigit

/-- Python `int(s)` on a string of decimal digits. -/
def digitsToNat (s : String) : Nat :=
  s.data.foldl (fun n c => 10 * n + (c.toNat - '0'.toNat)) 0

/-- `tail -100` over the lines of the job's `.out` file. -/
def tailLines (n : Nat) (lines : List String) : List String :=
  lines.drop (lines.length - n)

/-- Container-side observations consumed by `_op_exec_poll`: the
contents of the job's `.exit` file if it exists (`cat … 2>/dev/null`
yields `""` otherwise), whether `kill -0` on the recorded PID would
succeed, and the lines of the `.out` file. -/
structure PollObs where
  exitContent : Option String
  pidAlive : Bool
  outLines : List String
deriving Repr

/-- Response of `_op_exec_poll`; `pid_probed` records whether the
`kill -0` command was sent to the container. -/
structure PollResult where
  running : Bool
  exit_code : Option Nat
  output : List String
  pid_probed : Bool
deriving Repr, DecidableEq

/-- `_op_exec_poll` (`__init__.py` lines 1288-1340): read `.exit` first;
a decimal exit code is authoritative; otherwise probe the PID with
`kill -0`; always tail the last 100 lines of `.out`. -/
def op_exec_poll (obs : PollObs) : PollResult :=
  let ec_str := pyStrip (obs.exitContent.getD "")
  if pyIsDigit ec_str then
    { running := false, exit_code := some (digitsToNat ec_str),
      output := tailLines 100 obs.outLines, pid_probed := false }
  else
    { running := obs.pidAlive, exit_code := none,
      output := tailLines 100 obs.outLines, pid_probed := true }

/-! ## __init__.py: destroy_all -/

/-- Command lines `_op_destroy` issues for one container: compose
teardown when the metadata records a compose project, then
`kill`/`stop`, then `rm -f`. -/
def op_destroy_cmds (container : String) (force : Bool)
    (composeProject : Option String) : List (List String) :=
  (match composeProject with
   | some proj => [["compose", "-p", proj, "down", "--remove-orphans"]]
   | none => []) ++
  [[if force then "kill" else "stop", container], ["rm", "-f", container]]

/-- Observable outcome of `_op_destroy_all`: the error (if refused), the
engine command lines issued, and the containers destroyed / metadata
records removed. -/
structure DestroyAllOutcome where
  error : Option String
  engineCmds : List (List String)
  destroyed : List String
  metadataRemoved : List String
deriving Repr, DecidableEq

/-- The `ps` listing command of `_op_list`. -/
def op_list_cmd : List String :=
  ["ps", "-a", "--filter", "label=amplifier.managed=true", "--format",
   "\x7b\x7b.Names\x7d\x7d\t\x7b\x7b.Status\x7d\x7d\t\x7b\x7b.Image\x7d\x7d\t\x7b\x7b.Ports\x7d\x7d"]

/-- `_op_destroy_all` (`__init__.py` lines 1154-1162): refuse without
`confirm=true` (the `confirm` key defaults to `False` when absent);
otherwise list managed containers and force-destroy each.  `listing`
pairs each managed container name with its metadata compose project. -/
def op_destroy_all (confirm : Bool) (listing : List (String × Option String)) :
    DestroyAllOutcome :=
  if !confirm then
    { error := some "Set confirm=true to destroy all managed containers",
      engineCmds := [], destroyed := [], metadataRemoved := [] }
  else
    { error := none,
      engineCmds := [op_list_cmd] ++ listing.flatMap (fun c => op_destroy_cmds c.1 true c.2),
      destroyed := listing.map Prod.fst,
      metadataRemoved := listing.map Prod.fst }

/-! ## runtime.py: ContainerRuntime -/

/-- `CommandResult` dataclass from `runtime.py`. -/
structure CommandResult where
  returncode : Int
  stdout : String
  stderr : String
deriving Repr, DecidableEq

/-- `ContainerRuntime.detect`: prefer podman, then docker, over
`shutil.which`. -/
def runtime_detect (whichF : String → Bool) : Option String :=
  ["podman", "docker"].find? whichF

/-- Observable behaviour of the child process `ContainerRuntime.run`
spawns: it either communicates within the timeout (with a possibly-`None`
return code) or exceeds the timeout. -/
inductive ChildOutcome where
  | completes (returncode : Option Int) (stdout stderr : String)
  | timesOut
deriving Repr, DecidableEq

/-- `ContainerRuntime.run` (`runtime.py` lines 35-66).  The returned
flag records whether a child process was spawned at all. -/
def runtime_run (whichF : String → Bool) (_args : List String) (timeout : Nat)
    (child : ChildOutcome) : CommandResult × Bool :=
  match runtime_detect whichF with
  | none =>
      ({ returncode := 1, stdout := "",
         stderr := "No container runtime (docker/podman) found on PATH" }, false)
  | some _ =>
      match child with
      | .timesOut =>
          ({ returncode := -1, stdout := "",
             stderr := "Command timed out after " ++ toString timeout ++ "s" }, true)
      | .completes rc out err =>
          ({ returncode := rc.getD 0, stdout := out, stderr := err }, true)

/-! ## hooks-container-safety: sensitive mounts -/

/-- `DEFAULT_SENSITIVE_PREFIXES` from the safety hooks module. -/
def DEFAULT_SENSITIVE_PREFIXES : List String :=
  ["/", "/etc", "/var", "/root", "/home", "/boot", "/sys", "/proc"]

/-- Python `s.rstrip("/")`. -/
def rstripSlash (s : String) : String :=
  String.mk (s.data.reverse.dropWhile (fun c => c == '/')).reverse

/-- `ContainerSafetyHooks._is_sensitive_path`: empty paths are never
sensitive; otherwise compare the path, trailing slashes trimmed, for
exact equality against each configured prefix, trailing slashes
trimmed. -/
def is_sensitive_path (sensitive_prefixes : List String) (path : String) : Bool :=
  if path == "" then false
  else sensitive_prefixes.any (fun pre => rstripSlash path == rstripSlash pre)

/-- The sensitive-mount reasons `handle_tool_pre` accumulates for a
create call (one per mount whose host path is sensitive). -/
def sensitive_mount_reasons (sensitive_prefixes : List String)
    (mounts : List Mount) : List String :=
  mounts.filterMap
    (fun m =>
      if is_sensitive_path sensitive_prefixes m.host then
        some ("Sensitive host path mount: " ++ m.host)
      else none)

/-! ## Dict lemmas -/

theorem dlookup_dinsert (d : List (String × String)) (k v k' : String) :
    dlookup (dinsert d k v) k' = if k = k' then some v else dlookup d k' := by
  induction d with
  | nil =>
      simp only [dinsert, dlookup]
  | cons p rest ih =>
      simp only [dinsert]
      by_cases hp : p.1 = k
      · subst hp
        simp only [if_pos rfl]
        by_cases h : p.1 = k' <;> simp [dlookup, h]
      · rw [if_neg hp]
        by_cases hpk' : p.1 = k'
        · have hkk' : ¬k = k' := fun hc => hp (hc ▸ hpk')
          simp [dlookup, hpk', hkk']
        · simp [dlookup, hpk', ih]

theorem dlookup_dupdate_of_none (d e : List (String × String)) (k : String)
    (h : dlookup e k = none) : dlookup (dupdate d e) k = dlookup d k := by
  induction e generalizing d with
  | nil => simp [dupdate]
  | cons p rest ih =>
      simp only [dlookup] at h
      by_cases hp : p.1 = k
      · simp [hp] at h
      · simp only [hp, if_false] at h
        show dlookup (dupdate (dinsert d p.1 p.2) rest) k = dlookup d k
        rw [ih _ h, dlookup_dinsert, if_neg hp]

/-- If `e` has distinct keys and binds `k` to `v`, then updating any dict
with `e` leaves `k` bound to `v`. -/
theorem dlookup_dupdate_of_some (d e : List (String × String)) (k v : String)
    (hnodup : KeysNodup e) (h : dlookup e k = some v) :
    dlookup (dupdate d e) k = some v := by
  induction e generalizing d with
  | nil => simp [dlookup] at h
  | cons p rest ih =>
      simp only [dlookup] at h
      have hnodup' : KeysNodup rest := by
        simpa [KeysNodup] using (List.nodup_cons.mp hnodup).2
      by_cases hp : p.1 = k
      · simp only [hp, if_true, Option.some.injEq] at h
        have hrest : dlookup rest k = none := by
          have hk : k ∉ rest.map Prod.fst := by
            have := (List.nodup_cons.mp hnodup).1
            simpa [hp] using this
          clear ih hnodup hnodup'
          induction rest with
          | nil => rfl
          | cons q qs ihq =>
              simp only [List.map_cons, List.mem_cons] at hk
              push_neg at hk
              simp only [dlookup, show ¬(q.1 = k) from fun hc => hk.1 hc.symm, if_false]
              exact ihq (by simpa using hk.2)
        show dlookup (dupdate (dinsert d p.1 p.2) rest) k = some v
        rw [dlookup_dupdate_of_none _ _ _ hrest, dlookup_dinsert, if_pos hp, h]
      · simp only [hp, if_false] at h
        show dlookup (dupdate (dinsert d p.1 p.2) rest) k = some v
        exact ih _ hnodup' h

theorem dlookup_match_env_patterns_aux (patterns : List String) (k : String)
    (hk : k ∈ NEVER_PASSTHROUGH) (env : List (String × String)) :
    ∀ acc, dlookup acc k = none →
      dlookup
        (env.foldl
          (fun matched p =>
            if p.1 ∈ NEVER_PASSTHROUGH then matched
            else if patterns.any (fun pat => fnmatch p.1 pat) then dinsert matched p.1 p.2
            else matched)
          acc) k = none := by
  induction env with
  | nil => intro acc h; simpa using h
  | cons p rest ih =>
      intro acc h
      simp only [List.foldl_cons]
      apply ih
      by_cases hnp : p.1 ∈ NEVER_PASSTHROUGH
      · simpa [hnp] using h
      · by_cases hm : patterns.any (fun pat => fnmatch p.1 pat)
        · have hne : ¬p.1 = k := fun hc => hnp (hc ▸ hk)
          simp [hnp, hm, dlookup_dinsert, hne, h]
        · simp [hnp, hm, h]

theorem dlookup_match_env_patterns_never (env : List (String × String))
    (patterns : List String) (k : String) (hk : k ∈ NEVER_PASSTHROUGH) :
    dlookup (match_env_patterns env patterns) k = none :=
  dlookup_match_env_patterns_aux patterns k hk env [] rfl

theorem dlookup_filter_never (env : List (String × String)) (k : String)
    (hk : k ∈ NEVER_PASSTHROUGH) :
    dlookup (env.filter (fun p => p.1 ∉ NEVER_PASSTHROUGH)) k = none := by
  induction env with
  | nil => rfl
  | cons p rest ih =>
      by_cases hnp : p.1 ∈ NEVER_PASSTHROUGH
      · simpa [List.filter_cons, hnp, decide_not] using ih
      · have hne : ¬p.1 = k := fun hc => hnp (hc ▸ hk)
        simp only [List.filter_cons, decide_not] at ih ⊢
        simp [hnp, dlookup, hne, ih]

/-- C1 counterexample: in explicit-list mode, a listed variable that sits
in `NEVER_PASSTHROUGH` (here `PATH`) and is present on the host does
appear in the resolved environment even with an empty explicit env. -/
theorem resolve_env_passthrough_list_mode_leaks_path :
    "PATH" ∈ NEVER_PASSTHROUGH ∧
      dlookup
        (resolve_env_passthrough [("PATH", "/usr/bin")]
          (.byList ["PATH"]) [] none) "PATH" = some "/usr/bin" := by
  refine ⟨by simp [NEVER_PASSTHROUGH], ?_⟩
  rfl

/-- C1 (amended): for every string-valued mode (`"all"`, `"none"`,
`"auto"` and any other string, which falls back to `"auto"`), no
variable of `NEVER_PASSTHROUGH` appears in the environment resolved with
an empty explicit env mapping.  Explicit-list mode is excluded: it does
not filter `NEVER_PASSTHROUGH`. -/
theorem resolve_env_passthrough_never_passthrough (host_env : List (String × String))
    (s : String) (config_patterns : Option (List String)) (k : String)
    (hk : k ∈ NEVER_PASSTHROUGH) :
    dlookup (resolve_env_passthrough host_env (.byName s) [] config_patterns) k = none := by
  unfold resolve_env_passthrough
  simp only [dupdate, List.foldl_nil]
  by_cases hall : s = "all"
  · simp only [hall, if_pos rfl]
    exact dlookup_filter_never host_env k hk
  · by_cases hnone : s = "none"
    · simp [hall, hnone, dlookup]
    · simp only [hall, hnone, if_false]
      exact dlookup_match_env_patterns_never host_env _ k hk

/-- Witness for the amended C1 at a concrete host environment and mode. -/
theorem resolve_env_passthrough_never_passthrough_witness :
    dlookup
      (resolve_env_passthrough [("PATH", "/usr/bin"), ("MY_TOKEN", "t")]
        (.byName "auto") [] none) "PATH" = none :=
  resolve_env_passthrough_never_passthrough _ _ _ _ (by simp [NEVER_PASSTHROUGH])

/-- C10: in every mode, the request's explicit env mapping is applied
last and unconditionally — every key it binds (including
`NEVER_PASSTHROUGH` names such as `PATH`) ends up in the result with the
explicit value. -/
theorem resolve_env_passthrough_extra_env_wins (host_env : List (String × String))
    (mode : PassthroughMode) (extra_env : List (String × String))
    (config_patterns : Option (List String)) (k v : String)
    (hnodup : KeysNodup extra_env) (h : dlookup extra_env k = some v) :
    dlookup (resolve_env_passthrough host_env mode extra_env config_patterns) k = some v := by
  unfold resolve_env_passthrough
  exact dlookup_dupdate_of_some _ _ _ _ hnodup h

/-- Witness for C10: an explicit `PATH` overrides the host's `PATH`. -/
theorem resolve_env_passthrough_extra_env_wins_witness :
    dlookup
      (resolve_env_passthrough [("PATH", "/usr/bin")] (.byName "auto")
        [("PATH", "/custom")] none) "PATH" = some "/custom" :=
  resolve_env_passthrough_extra_env_wins [("PATH", "/usr/bin")] (.byName "auto")
    [("PATH", "/custom")] none "PATH" "/custom" (by simp [KeysNodup]) rfl

/-! ## Claim theorems for the create path, runtime and hooks -/

/-- C5 counterexample: with `mount_cwd=true`, requested workdir
`/workspace` and no mount targeting `/workspace`, the effective workdir
stays `/workspace` — the claim's demanded substitution to `/root` does
not happen. -/
theorem effective_workdir_not_substituted_when_mount_cwd :
    ¬(effective_workdir "/workspace" true [] = "/root") := by decide

/-- C5 (amended): the workdir is substituted with `/root` exactly when
`mount_cwd` is **false**, the requested workdir is `/workspace`, and no
configured mount's container path starts with `/workspace`; in all other
cases the requested workdir is used unchanged. -/
theorem effective_workdir_spec (workdir : String) (mount_cwd : Bool)
    (mounts : List Mount) :
    (workdir = "/workspace" ∧ mount_cwd = false ∧
        (∀ m ∈ mounts, pyStartsWith m.container "/workspace" = false) →
      effective_workdir workdir mount_cwd mounts = "/root") ∧
    (¬(workdir = "/workspace" ∧ mount_cwd = false ∧
        (∀ m ∈ mounts, pyStartsWith m.container "/workspace" = false)) →
      effective_workdir workdir mount_cwd mounts = workdir) := by
  have hiff : (workdir == "/workspace" && !mount_cwd &&
      !(mounts.any (fun m => pyStartsWith m.container "/workspace"))) = true ↔
      (workdir = "/workspace" ∧ mount_cwd = false ∧
        (∀ m ∈ mounts, pyStartsWith m.container "/workspace" = false)) := by
    simp only [Bool.and_eq_true, beq_iff_eq, Bool.not_eq_true', List.any_eq_false,
      Bool.not_eq_true, and_assoc]
  constructor
  · intro h
    unfold effective_workdir
    rw [if_pos (hiff.mpr h)]
  · intro h
    unfold effective_workdir
    rw [if_neg (fun hc => h (hiff.mp hc))]

/-- Witness for the amended C5: `mount_cwd=false`, workdir `/workspace`
and no mounts yields `/root`. -/
theorem effective_workdir_spec_witness :
    effective_workdir "/workspace" false [] = "/root" :=
  (effective_workdir_spec "/workspace" false []).1 ⟨rfl, rfl, by simp⟩

/-- C2: `extract_gh_token` would return the token pair, yet the run
command `_op_create` builds contains no `-e GH_TOKEN=…`/`GITHUB_TOKEN=…`
flag (the create path never calls `extract_gh_token`), and the gh
provisioning step of create — invoked without `gh_env_vars` — reports
`skipped`. -/
theorem op_create_never_injects_gh_token :
    extract_gh_token true 0 "ghp_abc123\n" =
      [("GH_TOKEN", "ghp_abc123"), ("GITHUB_TOKEN", "ghp_abc123")] ∧
    (op_create_run_args
        { host_env := [("USER", "dev")], cwd := "/work/proj", home := "/home/dev",
          sshDirExists := true, now := "2026-01-01T00:00:00+00:00" }
        { name := "amp-env-1", image := "ubuntu:24.04" } none).all
      (fun a => !(pyStartsWith a "GH_TOKEN=" || pyStartsWith a "GITHUB_TOKEN=")) = true ∧
    (op_create_gh_step { name := "amp-env-1", image := "ubuntu:24.04" }
        { verifyStdout := "", ghCheckExit := 1 }).1.status = "skipped" := by
  refine ⟨by decide, by decide, by decide⟩

/-- C3: with the gh CLI present in the container and the token verified,
the login command the provisioner issues contains the raw token as a
substring, and no issued command line is the `printenv GH_TOKEN`-based
pipeline the spec requires. -/
theorem provision_gh_auth_interpolates_token :
    (∃ cmd ∈ (provision_gh_auth "c1"
        (some [("GH_TOKEN", "ghp_test123"), ("GITHUB_TOKEN", "ghp_test123")])
        { verifyStdout := "ghp_test123\n", ghCheckExit := 0 }).2,
      ∃ a ∈ cmd, pyContains a "ghp_test123" = true) ∧
    (∀ cmd ∈ (provision_gh_auth "c1"
        (some [("GH_TOKEN", "ghp_test123"), ("GITHUB_TOKEN", "ghp_test123")])
        { verifyStdout := "ghp_test123\n", ghCheckExit := 0 }).2,
      ∀ a ∈ cmd, a ≠ "printenv GH_TOKEN | gh auth login --with-token") := by
  refine ⟨by decide, by decide⟩

/-- C4: a commit command is issued iff purpose is truthy, no cached
image was used, `cache_bust` is false, and the `setup_commands` step is
absent from the report or succeeded; when issued, it is exactly the
`commit … amplifier-cache:<purpose>` command with the profile-digest
label. -/
theorem op_create_cache_commit_iff (purpose : Option String)
    (cache_used cache_bust : Bool) (report : List ProvisioningStep)
    (version_hash : Option String) (name : String) :
    (op_create_cache_cmds purpose cache_used cache_bust report version_hash name ≠ [] ↔
      purposeTruthy purpose = true ∧ cache_used = false ∧ cache_bust = false ∧
        (report.find? (fun s => s.name == "setup_commands") = none ∨
          ∃ s, report.find? (fun s => s.name == "setup_commands") = some s ∧
            s.status = "success")) ∧
    (op_create_cache_cmds purpose cache_used cache_bust report version_hash name ≠ [] →
      op_create_cache_cmds purpose cache_used cache_bust report version_hash name =
        [cache_image_args version_hash name (purpose.getD "")]) := by
  have hsetup : setup_commands_ok report = true ↔
      (report.find? (fun s => s.name == "setup_commands") = none ∨
        ∃ s, report.find? (fun s => s.name == "setup_commands") = some s ∧
          s.status = "success") := by
    unfold setup_commands_ok
    cases hfind : report.find? (fun s => s.name == "setup_commands") with
    | none => simp
    | some s => simp
  unfold op_create_cache_cmds
  by_cases hc : (purposeTruthy purpose && !cache_used && !cache_bust &&
      setup_commands_ok report) = true
  · rw [if_pos hc]
    simp only [Bool.and_eq_true, Bool.not_eq_true'] at hc
    obtain ⟨⟨⟨hp, hu⟩, hb⟩, hs⟩ := hc
    refine ⟨⟨fun _ => ⟨hp, hu, hb, hsetup.mp hs⟩, fun _ => by simp⟩, fun _ => rfl⟩
  · rw [if_neg hc]
    refine ⟨⟨fun h => absurd rfl h, ?_⟩, fun h => absurd rfl h⟩
    rintro ⟨hp, hu, hb, hs⟩
    exact absurd (by
      simp only [Bool.and_eq_true, Bool.not_eq_true']
      exact ⟨⟨⟨hp, hu⟩, hb⟩, hsetup.mpr hs⟩) hc

/-- Witness for C4: a concrete create (purpose `python`, fresh image, no
cache bust, empty report) commits the cache image with the digest
label. -/
theorem op_create_cache_commit_iff_witness :
    op_create_cache_cmds (some "python") false false [] (some "abcd1234") "amp-1" =
      [cache_image_args (some "abcd1234") "amp-1" "python"] :=
  (op_create_cache_commit_iff (some "python") false false [] (some "abcd1234")
    "amp-1").2 (by decide)

/-- C6: a decimal exit code in `.exit` is authoritative — the poll
reports not-running with that code and never probes the PID; the PID is
probed only when no exit code is readable; the output is always the last
100 lines of `.out`. -/
theorem op_exec_poll_exit_file_authoritative (obs : PollObs) :
    (∀ s, obs.exitContent = some s → pyIsDigit (pyStrip s) = true →
      (op_exec_poll obs).running = false ∧
      (op_exec_poll obs).exit_code = some (digitsToNat (pyStrip s)) ∧
      (op_exec_poll obs).pid_probed = false) ∧
    (pyIsDigit (pyStrip (obs.exitContent.getD "")) = false →
      (op_exec_poll obs).pid_probed = true ∧
      (op_exec_poll obs).running = obs.pidAlive ∧
      (op_exec_poll obs).exit_code = none) ∧
    (op_exec_poll obs).output = tailLines 100 obs.outLines := by
  refine ⟨?_, ?_, ?_⟩
  · intro s hs hd
    simp [op_exec_poll, hs, hd]
  · intro hd
    simp [op_exec_poll, hd]
  · by_cases hd : pyIsDigit (pyStrip (obs.exitContent.getD "")) <;> simp [op_exec_poll, hd]

/-- Witness for C6 at a concrete job state: `.exit` holds `7` while the
recorded PID is still alive. -/
theorem op_exec_poll_exit_file_authoritative_witness :
    pyIsDigit (pyStrip "7") = true ∧
    ((op_exec_poll ⟨some "7", true, ["a"]⟩).running = false ∧
      (op_exec_poll ⟨some "7", true, ["a"]⟩).exit_code = some (digitsToNat (pyStrip "7")) ∧
      (op_exec_poll ⟨some "7", true, ["a"]⟩).pid_probed = false) :=
  ⟨by decide,
   (op_exec_poll_exit_file_authoritative ⟨some "7", true, ["a"]⟩).1 "7" rfl (by decide)⟩

/-- C7: for nonempty host paths, the sensitive-mount check triggers iff
the path equals one of the configured prefixes after trimming trailing
slashes on both sides; `/home` and `/home/` are sensitive,
`/home/user/projects` is not. -/
theorem is_sensitive_path_iff_exact_trimmed_match (path : String) (hne : path ≠ "") :
    (is_sensitive_path DEFAULT_SENSITIVE_PREFIXES path = true ↔
      ∃ pre ∈ DEFAULT_SENSITIVE_PREFIXES, rstripSlash path = rstripSlash pre) ∧
    is_sensitive_path DEFAULT_SENSITIVE_PREFIXES "/home" = true ∧
    is_sensitive_path DEFAULT_SENSITIVE_PREFIXES "/home/" = true ∧
    is_sensitive_path DEFAULT_SENSITIVE_PREFIXES "/home/user/projects" = false := by
  refine ⟨?_, by decide, by decide, by decide⟩
  unfold is_sensitive_path
  rw [if_neg (by simpa using hne)]
  simp [List.any_eq_true]

/-- Witness for C7 at the concrete path `/home`. -/
theorem is_sensitive_path_iff_exact_trimmed_match_witness :
    is_sensitive_path DEFAULT_SENSITIVE_PREFIXES "/home" = true :=
  (is_sensitive_path_iff_exact_trimmed_match "/home" (by decide)).2.1

/-- C8: on timeout the runtime returns exit code `-1` with the synthetic
stderr `Command timed out after Ns`; with neither podman nor docker on
PATH it returns exit code `1` with a synthetic stderr and spawns no
process. -/
theorem runtime_run_timeout_and_no_engine (whichF : String → Bool)
    (args : List String) (timeout : Nat) (child : ChildOutcome) :
    (whichF "podman" = false → whichF "docker" = false →
      runtime_run whichF args timeout child =
        ({ returncode := 1, stdout := "",
           stderr := "No container runtime (docker/podman) found on PATH" }, false)) ∧
    (∀ eng, runtime_detect whichF = some eng → child = .timesOut →
      runtime_run whichF args timeout child =
        ({ returncode := -1, stdout := "",
           stderr := "Command timed out after " ++ toString timeout ++ "s" }, true)) := by
  constructor
  · intro h1 h2
    have hdet : runtime_detect whichF = none := by
      simp [runtime_detect, List.find?, h1, h2]
    simp [runtime_run, hdet]
  · intro eng hdet hchild
    simp [runtime_run, hdet, hchild]

/-- Witness for C8: no engine on PATH yields the synthetic failure with
no spawned process. -/
theorem runtime_run_timeout_and_no_engine_witness :
    runtime_run (fun _ => false) ["ps"] 5 .timesOut =
      ({ returncode := 1, stdout := "",
         stderr := "No container runtime (docker/podman) found on PATH" }, false) :=
  (runtime_run_timeout_and_no_engine (fun _ => false) ["ps"] 5 .timesOut).1 rfl rfl

/-- C9: `destroy_all` with `confirm` absent or false returns the error
record and performs no work whatsoever: no engine command, no destroyed
container, no metadata removal. -/
theorem op_destroy_all_refuses_without_confirm (listing : List (String × Option String)) :
    op_destroy_all false listing =
      { error := some "Set confirm=true to destroy all managed containers",
        engineCmds := [], destroyed := [], metadataRemoved := [] } := rfl

end AmplifierContainers
